import Mathlib

/-!
Verification of the declarative configuration of the j-ochmann astro
documentation repository.  The file astro.config.mjs holds two configuration
variants separated by a document separator; both are embedded here field by
field, keeping the source key names.  Behaviour performed by the external
static-site generator (output-path generation, directory autogeneration,
schema validation, highlight skipping, build-time consumption) is not code of
this repository; those parts are modelled from the specification, as marked
on each such definition.
-/

namespace AstroConfig

/-- A social link rendered in the theme header: icon, label and href,
as in the social array of the configuration. -/
structure SocialLink where
  icon : String
  label : String
  href : String
  deriving DecidableEq

/-- A nested sidebar item: a label paired with a content slug, as in the
items array of the Design Patterns entry. -/
structure SubItem where
  label : String
  slug : String
  deriving DecidableEq

/-- The argument of an autogenerate directive: the content directory
to enumerate. -/
structure Autogen where
  directory : String
  deriving DecidableEq

/-- A top-level sidebar entry.  Each optional field is present exactly when
the corresponding key is written in the configuration object literal. -/
structure SidebarEntry where
  label : String
  link : Option String
  slug : Option String
  items : Option (List SubItem)
  autogenerate : Option Autogen
  collapsed : Option Bool
  deriving DecidableEq

/-- The syntaxHighlight record of the markdown settings: the engine
identifier and the language tags excluded from highlighting. -/
structure SyntaxHighlightSettings where
  type : String
  excludeLangs : List String
  deriving DecidableEq

/-- The nested mermaidConfig record of the diagram-plugin options. -/
structure MermaidThemeConfig where
  theme : String
  deriving DecidableEq

/-- The options record passed to the rehype-mermaid plugin: a nested
mermaidConfig with a theme name, and the dark flag. -/
structure RehypeMermaidOptions where
  mermaidConfig : MermaidThemeConfig
  dark : Bool
  deriving DecidableEq

/-- One entry of the rehypePlugins pipeline: a plugin identifier paired with
its options record. -/
structure RehypePluginEntry where
  plugin : String
  options : RehypeMermaidOptions
  deriving DecidableEq

/-- The markdown settings of the configuration. -/
structure MarkdownSettings where
  syntaxHighlight : SyntaxHighlightSettings
  rehypePlugins : List RehypePluginEntry
  deriving DecidableEq

/-- The starlight integration options: theme title, social links and the
sidebar navigation sequence. -/
structure StarlightConfig where
  title : String
  social : List SocialLink
  sidebar : List SidebarEntry
  deriving DecidableEq

/-- The whole configuration object passed to defineConfig. -/
structure Config where
  site : String
  base : String
  markdown : MarkdownSettings
  integrations : List StarlightConfig
  deriving DecidableEq

/-- The Quick Reference entry of the first variant: an autogenerate
directive for directory quick_reference, collapsed. -/
def quickReferenceEntry : SidebarEntry :=
  ⟨"Quick Reference", none, none, none, some ⟨"quick_reference"⟩, some true⟩

/-- The Design Patterns entry of the first variant: it carries a link,
a collapsed flag and a nested items list. -/
def designPatternsEntry : SidebarEntry :=
  ⟨"Design Patterns", some "design_patterns", none,
    some [⟨"Creational", "design_patterns/creational"⟩,
          ⟨"Structural", "design_patterns/structural"⟩,
          ⟨"Behavioral", "design_patterns/behavioral"⟩],
    none, some true⟩

/-- The External Resources entry of the first variant: an autogenerate
directive for directory external, collapsed. -/
def externalResourcesEntry : SidebarEntry :=
  ⟨"External Resources", none, none, none, some ⟨"external"⟩, some true⟩

/-- The sidebar of the first configuration variant. -/
def sidebar1 : List SidebarEntry :=
  [quickReferenceEntry, designPatternsEntry, externalResourcesEntry]

/-- The sidebar of the second configuration variant: one Design Patterns
entry with an autogenerate directive for directory design_patterns. -/
def sidebar2 : List SidebarEntry :=
  [⟨"Design Patterns", none, none, none, some ⟨"design_patterns"⟩, some true⟩]

/-- The markdown settings shared by both variants: shiki highlighting with
mermaid excluded, and a single rehype plugin entry for rehype-mermaid with
theme default and dark false. -/
def theMarkdown : MarkdownSettings :=
  ⟨⟨"shiki", ["mermaid"]⟩, [⟨"rehypeMermaid", ⟨⟨"default"⟩, false⟩⟩]⟩

/-- The social links shared by both variants. -/
def theSocial : List SocialLink :=
  [⟨"github", "GitHub", "https://github.com/j-ochmann"⟩]

/-- The first configuration variant (before the document separator). -/
def theConfig : Config :=
  ⟨"https://j-ochmann.github.io", "/astro", theMarkdown,
    [⟨"DevBook", theSocial, sidebar1⟩]⟩

/-- The second configuration variant (after the document separator). -/
def theConfig2 : Config :=
  ⟨"https://j-ochmann.github.io", "/astro", theMarkdown,
    [⟨"DevBook", theSocial, sidebar2⟩]⟩

/-- All top-level sidebar entries of both configuration variants. -/
def allSidebarEntries : List SidebarEntry := sidebar1 ++ sidebar2

/-- An explicit link entry: it carries a slug or a link and neither nested
items nor an autogenerate directive. -/
def isLinkShape (e : SidebarEntry) : Bool :=
  (e.link.isSome || e.slug.isSome) && e.items.isNone && e.autogenerate.isNone

/-- A group entry: it carries nested items and neither a slug, a link nor an
autogenerate directive. -/
def isGroupShape (e : SidebarEntry) : Bool :=
  e.items.isSome && e.link.isNone && e.slug.isNone && e.autogenerate.isNone

/-- A directory-autogeneration entry: it carries an autogenerate directive
and neither a slug, a link nor nested items. -/
def isAutogenShape (e : SidebarEntry) : Bool :=
  e.autogenerate.isSome && e.link.isNone && e.slug.isNone && e.items.isNone

/-- An entry is well shaped when it is exactly one of the three listed
shapes (the three shape predicates are mutually exclusive by definition). -/
def wellShaped (e : SidebarEntry) : Bool :=
  isLinkShape e || isGroupShape e || isAutogenShape e

/-- An entry that combines an explicit link or slug with a group of nested
items, still without any autogenerate directive. -/
def isLinkGroupCombination (e : SidebarEntry) : Bool :=
  (e.link.isSome || e.slug.isSome) && e.items.isSome && e.autogenerate.isNone

/-- Modelled from the spec: the external generator serves the page of a
content slug at the base path prefix joined with the slug and a trailing
slash.  The path computation itself is performed by the generator, not by
code of this repository. -/
def outputPath (base slug : String) : String := base ++ "/" ++ slug ++ "/"

/-- Modelled from the spec: for a sidebar entry with an autogenerate
directive, the external generator enumerates the content files found under
the named directory and emits one navigation item per file, ordered by
filename.  Given the filenames found under the directory, the generated
item sequence is those filenames in order. -/
def autogenNav (files : List String) : List String :=
  List.insertionSort (fun a b => a ≤ b) files

/-- Modelled from the spec: the content tree of the repository, abstracted
as the set of content-page slugs and the set of content directories.  The
content files themselves are prose pages outside the configuration source;
only the behavioral design-patterns page is present among the given
sources. -/
structure ContentModel where
  slugs : List String
  dirs : List String

/-- Modelled from the spec: a sidebar entry resolves in a content model when
every slug or link it carries names an existing content page and any
autogenerate directive it carries names an existing content directory. -/
def entryResolves (c : ContentModel) (e : SidebarEntry) : Bool :=
  (match e.link with
    | some l => (l ∈ c.slugs : Bool)
    | none => true) &&
  (match e.slug with
    | some s => (s ∈ c.slugs : Bool)
    | none => true) &&
  ((e.items.getD []).all fun i => (i.slug ∈ c.slugs : Bool)) &&
  (match e.autogenerate with
    | some a => (a.directory ∈ c.dirs : Bool)
    | none => true)

/-- Modelled from the spec: the theme names supported by the
diagram-rendering plugin (the mermaid theme enumeration). -/
def mermaidSupportedThemes : List String :=
  ["default", "base", "dark", "forest", "neutral"]

/-- Modelled from the spec: the highlighter skips a language tag exactly
when the syntaxHighlight settings list it among the excluded languages. -/
def highlighterSkips (s : SyntaxHighlightSettings) (lang : String) : Bool :=
  s.excludeLangs.contains lang

/-- Modelled from the spec: a well-formed base path component starts with a
slash, has content after it, does not end in a slash, and uses only
alphanumeric characters, slashes, underscores and hyphens. -/
def isWellFormedPath (p : String) : Bool :=
  match p.data with
  | [] => false
  | c :: rest =>
    (c = '/' : Bool) && !rest.isEmpty && !(rest.getLast? = some '/' : Bool) &&
      rest.all fun ch => ch.isAlphanum || ch = '/' || ch = '_' || ch = '-'

/-- Modelled from the spec: a well-formed site URL starts with an https
scheme and continues with a nonempty host made of alphanumeric characters,
dots, hyphens and slashes. -/
def isWellFormedURL (u : String) : Bool :=
  (u.data.take 8 = "https://".data : Bool) && !(u.data.drop 8).isEmpty &&
    (u.data.drop 8).all fun ch => ch.isAlphanum || ch = '.' || ch = '-' || ch = '/'

/-- The top-level keys written in the configuration object literal. -/
def theConfigKeys : List String := ["site", "base", "markdown", "integrations"]

/-- Modelled from the spec: the top-level keys of the external generator
schema, as given by the external-interfaces table of the specification. -/
def schemaTopLevelKeys : List String := ["site", "base", "markdown", "integrations"]

/-- Modelled from the spec: the configuration validates against the external
generator schema when no required key is missing, no unknown key is present,
the base is a well-formed path and the site is a well-formed URL.  Presence
of exactly the declared keys is compared on the key lists; the field types
are enforced by the Config structure itself. -/
def validatesAgainstSchema (c : Config) : Bool :=
  (theConfigKeys = schemaTopLevelKeys : Bool) &&
    isWellFormedPath c.base && isWellFormedURL c.site

/-- Evaluating the configuration module: the module body is a single literal
object, so each evaluation yields the same configuration value. -/
def evalConfigModule : Unit → Config := fun _ => theConfig

/-- Modelled from the spec: the external generator consumes the
configuration once at build start, reading its fields; the read is pure, so
the consumed configuration value is returned unchanged alongside the fields
that were read. -/
def consumeAtBuildStart (c : Config) :
    (String × String × MarkdownSettings × List StarlightConfig) × Config :=
  ((c.site, c.base, c.markdown, c.integrations), c)

/-- A concrete content model holding every slug and directory the sidebars
reference, used to instantiate the resolution theorem. -/
def witnessContent : ContentModel :=
  ⟨["design_patterns", "design_patterns/creational",
    "design_patterns/structural", "design_patterns/behavioral"],
   ["quick_reference", "external", "design_patterns"]⟩

/-- C1 as stated is false: the Design Patterns entry of the first variant
(the entry at index 1 of its sidebar) carries both an explicit link and a
nested items list, so it combines the link shape with the group shape and is
not exactly one of the listed shapes. -/
theorem designPatternsEntry_combines_link_and_group :
    sidebar1.get? 1 = some designPatternsEntry ∧
    wellShaped designPatternsEntry = false ∧
    designPatternsEntry.link.isSome = true ∧
    designPatternsEntry.items.isSome = true := by decide

/-- C1 (amended): every top-level sidebar entry of both variants is exactly
one of the listed shapes, except that an entry may combine an explicit link
with a group of nested items, as the Design Patterns entry of the first
variant does; no entry combines any shape with an autogenerate directive,
and each entry carries at most a collapsed display flag besides. -/
theorem sidebar_entries_shapes :
    (allSidebarEntries.all fun e => wellShaped e || isLinkGroupCombination e) = true := by
  decide

/-- C2: with the base path of the configuration, the modelled output path of
the content slug design_patterns/behavioral (the slug of the Behavioral item
of the Design Patterns entry) is /astro/design_patterns/behavioral/. -/
theorem behavioral_page_output_path :
    theConfig.base = "/astro" ∧
    ((designPatternsEntry.items.getD []).any fun i =>
      (i.slug = "design_patterns/behavioral" : Bool)) = true ∧
    outputPath theConfig.base "design_patterns/behavioral" =
      "/astro/design_patterns/behavioral/" := by decide

/-- C3: the Quick Reference entry of the first sidebar carries an
autogenerate directive for directory quick_reference, and for every list of
content filenames found under an autogenerated directory the modelled
navigation holds exactly one item per file (it is a permutation of the
files, so counts are preserved) and the items appear in filename order. -/
theorem autogenerate_one_item_per_file_in_order :
    quickReferenceEntry.autogenerate = some ⟨"quick_reference"⟩ ∧
    quickReferenceEntry ∈ sidebar1 ∧
    ∀ files : List String,
      List.Perm (autogenNav files) files ∧
        List.Sorted (fun a b => a ≤ b) (autogenNav files) :=
  ⟨rfl, by decide, fun files =>
    ⟨List.perm_insertionSort _ files, List.sorted_insertionSort _ files⟩⟩

/-- C4: in any content model holding the slugs design_patterns,
design_patterns/creational, design_patterns/structural and
design_patterns/behavioral and the directories quick_reference, external and
design_patterns, every sidebar entry of both variants resolves: no entry
produces a broken navigation target. -/
theorem every_sidebar_entry_resolves (c : ContentModel)
    (h1 : "design_patterns" ∈ c.slugs)
    (h2 : "design_patterns/creational" ∈ c.slugs)
    (h3 : "design_patterns/structural" ∈ c.slugs)
    (h4 : "design_patterns/behavioral" ∈ c.slugs)
    (h5 : "quick_reference" ∈ c.dirs)
    (h6 : "external" ∈ c.dirs)
    (h7 : "design_patterns" ∈ c.dirs) :
    allSidebarEntries.all (entryResolves c) = true := by
  simp [allSidebarEntries, sidebar1, sidebar2, quickReferenceEntry,
    designPatternsEntry, externalResourcesEntry, entryResolves,
    h1, h2, h3, h4, h5, h6, h7]

/-- Witness for C4 at the concrete content model holding exactly the
referenced slugs and directories. -/
theorem every_sidebar_entry_resolves_witness :
    allSidebarEntries.all (entryResolves witnessContent) = true :=
  every_sidebar_entry_resolves witnessContent (by decide) (by decide)
    (by decide) (by decide) (by decide) (by decide) (by decide)

/-- C5: the rehype pipeline holds exactly one plugin entry, the mermaid
plugin with its options record stored literally (hence passed through
uninterpreted by this repository); the theme name it supplies is default,
which belongs to the modelled supported enumeration, and the dark flag is
the boolean false. -/
theorem mermaid_plugin_options_valid :
    theConfig.markdown.rehypePlugins =
      [⟨"rehypeMermaid", ⟨⟨"default"⟩, false⟩⟩] ∧
    "default" ∈ mermaidSupportedThemes ∧
    (theConfig.markdown.rehypePlugins.all fun p =>
      (p.options.mermaidConfig.theme ∈ mermaidSupportedThemes : Bool) &&
        !p.options.dark) = true := by decide

/-- C6: the markdown settings select the shiki highlighting engine, exclude
exactly the language tag mermaid, and hold one post-processing plugin entry
pairing the mermaid plugin identifier with its options record; every
language tag in the exclusion set is skipped by the modelled highlighter. -/
theorem markdown_settings_correct :
    theConfig.markdown.syntaxHighlight.type = "shiki" ∧
    theConfig.markdown.syntaxHighlight.excludeLangs = ["mermaid"] ∧
    (theConfig.markdown.rehypePlugins.map fun p => p.plugin) =
      ["rehypeMermaid"] ∧
    (theConfig.markdown.syntaxHighlight.excludeLangs.all fun lang =>
      highlighterSkips theConfig.markdown.syntaxHighlight lang) = true := by
  decide

/-- C7: the configuration validates against the modelled generator schema:
its key list matches the schema key list (no required key missing, no
unknown key present), its base /astro is a well-formed path component and
its site https address is a well-formed URL. -/
theorem config_validates_against_schema :
    validatesAgainstSchema theConfig = true ∧
    theConfig.base = "/astro" ∧
    theConfig.site = "https://j-ochmann.github.io" := by decide

/-- C8: the configuration is a constant: every evaluation of the
configuration module yields the same configuration value, and consuming the
configuration at build start returns it with every field unchanged. -/
theorem config_constant_and_unmutated :
    (∀ u v : Unit, evalConfigModule u = evalConfigModule v) ∧
    (consumeAtBuildStart theConfig).2 = theConfig :=
  ⟨fun _ _ => rfl, rfl⟩

/-- C9: the two configuration variants agree on the site URL, the base
path, the whole markdown settings (highlighter, exclusion set and rehype
pipeline with identical options), the theme title and the social links;
only their sidebars differ. -/
theorem variants_differ_only_in_sidebar :
    theConfig.site = theConfig2.site ∧
    theConfig.base = theConfig2.base ∧
    theConfig.markdown = theConfig2.markdown ∧
    (theConfig.integrations.map fun i => i.title) =
      (theConfig2.integrations.map fun i => i.title) ∧
    (theConfig.integrations.map fun i => i.social) =
      (theConfig2.integrations.map fun i => i.social) ∧
    (theConfig.integrations.map fun i => i.sidebar) ≠
      (theConfig2.integrations.map fun i => i.sidebar) := by decide

/-- C10: every top-level sidebar entry of both configuration variants
carries the collapsed flag set to true. -/
theorem all_entries_collapsed :
    (allSidebarEntries.all fun e => (e.collapsed = some true : Bool)) = true := by
  decide

end AstroConfig
